import Mathlib

/-!
# Verification of the arena-forge level editor core

A shallow embedding of the editor's entity model, command objects,
scene serializer and undo/redo machinery, translated from the
JavaScript sources, together with proofs and refutations of the
specified properties.

Modelling conventions:
* JavaScript numbers are modelled as exact rationals; floating-point
  rounding is idealised away, which only strengthens results stated up
  to a tolerance.
* A JSON text is represented by the value it parses to (`some v`), and
  a text that fails `JSON.parse` by `none`; `JSON.stringify` followed by
  `JSON.parse` is the identity on finite JSON values, so the text layer
  is modelled at the value level.
* Thrown `TypeError`s are modelled with `Except`; functions that throw
  return `Except.error`.
-/

/-- A 3-component vector of rationals, modelling `THREE.Vector3` /
`THREE.Euler` component data in exact arithmetic. -/
structure Vec3 where
  x : ℚ
  y : ℚ
  z : ℚ
deriving DecidableEq

/-- Absolute-difference tolerance of 1e-6 used by the round-trip claim. -/
def withinTol (a b : ℚ) : Prop := |a - b| ≤ 1 / 1000000

/-- Componentwise 1e-6 closeness of two vectors. -/
def Vec3.close (u v : Vec3) : Prop :=
  withinTol u.x v.x ∧ withinTol u.y v.y ∧ withinTol u.z v.z

/-- A JSON value: the untyped data the editor passes around
(`JSON.parse` results, entity `data` objects, serialized snapshots). -/
inductive Json where
  | null : Json
  | bool : Bool → Json
  | num : ℚ → Json
  | str : String → Json
  | arr : List Json → Json
  | obj : List (String × Json) → Json

/-- JavaScript `TypeError` (null/undefined dereference and the like). -/
inductive JsError where
  | typeError : JsError
deriving DecidableEq

/-- First field with the given key, modelling JS property lookup on a
plain object. -/
def lookupField : List (String × Json) → String → Option Json
  | [], _ => none
  | p :: rest, key => if p.1 = key then some p.2 else lookupField rest key

/-- JS member access `v.key`: throws on `null`, yields the property (or
`undefined`, modelled as `none`) otherwise. -/
def jsMember (v : Json) (key : String) : Except JsError (Option Json) :=
  match v with
  | Json.null => Except.error JsError.typeError
  | Json.obj fields => Except.ok (lookupField fields key)
  | _ => Except.ok none

/-- JS property assignment `v.key = x` in strict (module) mode: throws
unless the receiver is an object; keeps the position of an existing key,
appends a new one. -/
def jsSetMember (v : Json) (key : String) (x : Json) : Except JsError Json :=
  match v with
  | Json.obj fields =>
      if (lookupField fields key).isSome then
        Except.ok (Json.obj (fields.map (fun p => if p.1 = key then (p.1, x) else p)))
      else
        Except.ok (Json.obj (fields ++ [(key, x)]))
  | _ => Except.error JsError.typeError

/-- JS truthiness of a parsed JSON value. -/
def truthy (v : Json) : Bool :=
  match v with
  | Json.null => false
  | Json.bool b => b
  | Json.num q => decide (q ≠ 0)
  | Json.str s => decide (s ≠ "")
  | Json.arr _ => true
  | Json.obj _ => true

/-- Whether a JSON value is a plain object (a mapping). -/
def Json.isObj : Json → Bool
  | Json.obj _ => true
  | _ => false

/-- Element `i` of a JSON array read as a number.  A missing or
non-numeric entry is garbage (`undefined` / NaN coercion) in JS; it is
modelled as `0` and no theorem relies on that case. -/
def numAt (xs : List Json) (i : ℕ) : ℚ :=
  match xs.get? i with
  | some (Json.num q) => q
  | _ => 0

/-- `new THREE.Vector3().fromArray(v)` (same shape for `Euler.fromArray`):
throws when `v` is `undefined` (`none`) or `null`; reads indices 0..2 of
an array; on any other value index access yields garbage, modelled as
zeroes (no theorem relies on that case). -/
def readVec3Js (v : Option Json) : Except JsError Vec3 :=
  match v with
  | none => Except.error JsError.typeError
  | some Json.null => Except.error JsError.typeError
  | some (Json.arr xs) => Except.ok ⟨numAt xs 0, numAt xs 1, numAt xs 2⟩
  | some _ => Except.ok ⟨0, 0, 0⟩

/-- Encode a vector as the JSON object `{x, y, z}` (entity `data`
transform fields). -/
def vecToJsonXYZ (v : Vec3) : Json :=
  Json.obj [("x", Json.num v.x), ("y", Json.num v.y), ("z", Json.num v.z)]

/-- Encode a vector as the JSON array `[x, y, z]`
(`Vector3.prototype.toArray`). -/
def vec3ToJsonArr (v : Vec3) : Json :=
  Json.arr [Json.num v.x, Json.num v.y, Json.num v.z]

/-- Read a `{x, y, z}` object field of an entity's `data` back as a
vector, `none` when the shape is absent. -/
def readVecXYZ (data : Json) (key : String) : Option Vec3 :=
  match data with
  | Json.obj fields =>
      match lookupField fields key with
      | some (Json.obj pf) =>
          match lookupField pf "x", lookupField pf "y", lookupField pf "z" with
          | some (Json.num a), some (Json.num b), some (Json.num c) => some ⟨a, b, c⟩
          | _, _, _ => none
      | _ => none
  | _ => none

/-- Geometry created by an object type's `createGeometry` thunk. -/
inductive Geometry where
  | box (width height depth : ℚ) : Geometry
  | cylinder (radiusTop radiusBottom height : ℚ) (radialSegments : ℕ) : Geometry
deriving DecidableEq

/-- The visual node of an entity (`THREE.Mesh` state the editor core
reads and writes).  For the editor's scene-root objects the world
transform obtained by `updateMatrixWorld` + `matrixWorld.decompose` is,
in exact arithmetic, the mesh's own position/rotation/scale, so the
world transform is read directly from these fields.  Materials are
identified by their library key (the library hands out clones). -/
structure Mesh where
  position : Vec3
  rotation : Vec3
  scale : Vec3
  material : Option String
  geometry : Geometry
deriving DecidableEq

/-- An editor object: id, visual mesh node, and semantic `data` (an
untyped JSON mapping, as in the source). -/
structure EditorObject where
  id : String
  mesh : Mesh
  data : Json

/-- Keys of `MaterialsLibrary.createMaterials`. -/
def MaterialsLibrary.names : List String :=
  ["floor", "obstacle", "wall", "emissiveCyan", "emissiveOrange",
   "emissiveMagenta", "platform", "metalTrim"]

/-- `MaterialsLibrary.has`: `name in this.materials`. -/
def MaterialsLibrary.has (name : String) : Bool :=
  MaterialsLibrary.names.contains name

/-- `MaterialsLibrary.get`: a clone of the named material, `null` when
absent; clones are modelled by the key they were cloned from. -/
def MaterialsLibrary.get (name : String) : Option String :=
  if MaterialsLibrary.has name then some name else none

/-- One entry of `ObjectFactory.OBJECT_TYPES`: geometry, material key,
type-specific size (stored into `data.size`), y offset, and optional
default rotation. -/
structure TypeConfig where
  geometry : Geometry
  material : String
  size : Json
  yOffset : ℚ
  defaultRotation : Option Vec3

/-- `Math.PI` (the IEEE double, an exact rational). -/
def MathPI : ℚ := 884279719003555 / 281474976710656

/-- `ObjectFactory.OBJECT_TYPES.box`. -/
def boxTypeConfig : TypeConfig :=
  { geometry := Geometry.box 2 2 2
    material := "obstacle"
    size := Json.obj [("width", Json.num 2), ("height", Json.num 2), ("depth", Json.num 2)]
    yOffset := 1
    defaultRotation := none }

/-- The static registry `ObjectFactory.OBJECT_TYPES`. -/
def OBJECT_TYPES : String → Option TypeConfig
  | "box" => some boxTypeConfig
  | "platform" => some
      { geometry := Geometry.box 5 (1/2) 5
        material := "platform"
        size := Json.obj [("width", Json.num 5), ("height", Json.num (1/2)), ("depth", Json.num 5)]
        yOffset := 1/4
        defaultRotation := none }
  | "wall" => some
      { geometry := Geometry.box (3/10) 3 5
        material := "wall"
        size := Json.obj [("width", Json.num (3/10)), ("height", Json.num 3), ("depth", Json.num 5)]
        yOffset := 3/2
        defaultRotation := none }
  | "cylinder" => some
      { geometry := Geometry.cylinder 1 1 3 16
        material := "obstacle"
        size := Json.obj [("radius", Json.num 1), ("height", Json.num 3)]
        yOffset := 3/2
        defaultRotation := none }
  | "ramp" => some
      { geometry := Geometry.box 4 (3/10) 6
        material := "platform"
        size := Json.obj [("width", Json.num 4), ("height", Json.num (3/10)), ("depth", Json.num 6)]
        yOffset := 9/10
        defaultRotation := some ⟨MathPI / 12, 0, 0⟩ }
  | "emissive_strip" => some
      { geometry := Geometry.box (1/5) (1/10) 3
        material := "emissiveCyan"
        size := Json.obj [("width", Json.num (1/5)), ("height", Json.num (1/10)), ("depth", Json.num 3)]
        yOffset := 1/20
        defaultRotation := none }
  | _ => none

/-- `ObjectFactory.getYOffset`. -/
def ObjectFactory.getYOffset (type : String) : ℚ :=
  match OBJECT_TYPES type with
  | some config => config.yOffset
  | none => 1

/-- Character for one base-36 digit, as produced by
`Number.prototype.toString(36)`. -/
def base36DigitChar (d : Fin 36) : Char :=
  if d.val < 10 then Char.ofNat (48 + d.val) else Char.ofNat (87 + d.val)

/-- `x.toString(36)` for `x = Math.random() ∈ [0,1)`, with the random
double abstracted by the list of base-36 fractional digits the
conversion prints (no trailing zeros; empty for `x = 0`): the output is
`"0"` for zero and otherwise `"0."` followed by the digits. -/
def randomToStringBase36 (digits : List (Fin 36)) : String :=
  if digits.isEmpty then "0"
  else "0." ++ String.mk (digits.map base36DigitChar)

/-- `String.prototype.substr(start, length)`. -/
def substrJs (s : String) (start len : ℕ) : String :=
  String.mk ((s.toList.drop start).take len)

/-- `ObjectFactory.generateId`, with `Date.now()` passed as `now` and the
`Math.random()` result abstracted by its printed base-36 fractional
digits. -/
def ObjectFactory.generateId (now : ℕ) (randDigits : List (Fin 36)) : String :=
  "obj_" ++ toString now ++ "_" ++ substrJs (randomToStringBase36 randDigits) 2 9

/-- `ObjectFactory.create`.  The type key is `none` when the caller
passed `undefined` (or a non-string value, which can never match a
registry key); the optional `id` is `none` when absent, and an empty
string is falsy so `id || this.generateId()` replaces it; `freshId`
stands for the `generateId()` result of this call. -/
def ObjectFactory.create (type : Option String) (position : Vec3)
    (id : Option String) (freshId : String) : EditorObject :=
  let config := (type.bind OBJECT_TYPES).getD boxTypeConfig
  let rotation := config.defaultRotation.getD ⟨0, 0, 0⟩
  let mesh : Mesh :=
    { position := position
      rotation := rotation
      scale := ⟨1, 1, 1⟩
      material := MaterialsLibrary.get config.material
      geometry := config.geometry }
  let typeField : List (String × Json) :=
    match type with
    | some t => [("type", Json.str t)]
    | none => []
  let data := Json.obj (typeField ++
    [("position", vecToJsonXYZ position),
     ("rotation", vecToJsonXYZ rotation),
     ("scale", vecToJsonXYZ ⟨1, 1, 1⟩),
     ("materialType", Json.str config.material),
     ("size", config.size),
     ("customData", Json.obj [])])
  { id := match id with
          | some s => if s = "" then freshId else s
          | none => freshId
    mesh := mesh
    data := data }

/-- A property value passed to `PropertyUpdater.update`: a number (a
numeric UI value, `parseFloat` already yielding it) or a string (a
material key).  Non-numeric strings parse to NaN garbage in JS; that
case is modelled as `0` and no theorem relies on it. -/
inductive PropVal where
  | num (q : ℚ) : PropVal
  | str (s : String) : PropVal

/-- Numeric coercion of a property value (`parseFloat` / arithmetic
coercion). -/
def PropVal.toNum : PropVal → ℚ
  | PropVal.num q => q
  | PropVal.str _ => 0

/-- `THREE.MathUtils.degToRad`. -/
def degToRad (v : ℚ) : ℚ := v * (MathPI / 180)

/-- Read `data.k1.k2` as a number: throws when `data.k1` is `undefined`
or `null` (JS property read on a missing base); any non-numeric leaf is
garbage modelled as `0`. -/
def getPath2Num (data : Json) (k1 k2 : String) : Except JsError ℚ := do
  let sub ← jsMember data k1
  match sub with
  | none => Except.error JsError.typeError
  | some s => do
      let leaf ← jsMember s k2
      match leaf with
      | some (Json.num q) => Except.ok q
      | _ => Except.ok 0

/-- Assign `data.k1.k2 = q`: throws when `data.k1` is `undefined`,
`null`, or not an object (strict-mode assignment). -/
def setPath2 (data : Json) (k1 k2 : String) (q : ℚ) : Except JsError Json := do
  let sub ← jsMember data k1
  match sub with
  | none => Except.error JsError.typeError
  | some s => do
      let s2 ← jsSetMember s k2 (Json.num q)
      jsSetMember data k1 s2

/-- `PropertyUpdater.update`: applies one named property change to the
mesh and mirrors it into the entity's `data` (the `switch` in the
source).  Division by a zero size is `Infinity` in JS and `0` here; the
written value is mirrored identically either way. -/
def PropertyUpdater.update (o : EditorObject) (property : String) (value : PropVal) :
    Except JsError EditorObject :=
  match property with
  | "materialType" =>
      match value with
      | PropVal.str s =>
          if MaterialsLibrary.has s then do
            let d2 ← jsSetMember o.data "materialType" (Json.str s)
            Except.ok { o with mesh := { o.mesh with material := MaterialsLibrary.get s }
                               data := d2 }
          else Except.ok o
      | _ => Except.ok o
  | "width" => do
      let w ← getPath2Num o.data "size" "width"
      let v := value.toNum / w
      let d2 ← setPath2 o.data "scale" "x" v
      Except.ok { o with mesh := { o.mesh with scale := { o.mesh.scale with x := v } }
                         data := d2 }
  | "height" => do
      let h ← getPath2Num o.data "size" "height"
      let v := value.toNum / h
      let d2 ← setPath2 o.data "scale" "y" v
      Except.ok { o with mesh := { o.mesh with scale := { o.mesh.scale with y := v } }
                         data := d2 }
  | "depth" => do
      let d ← getPath2Num o.data "size" "depth"
      let v := value.toNum / d
      let d2 ← setPath2 o.data "scale" "z" v
      Except.ok { o with mesh := { o.mesh with scale := { o.mesh.scale with z := v } }
                         data := d2 }
  | "x" => do
      let v := value.toNum
      let d2 ← setPath2 o.data "position" "x" v
      Except.ok { o with mesh := { o.mesh with position := { o.mesh.position with x := v } }
                         data := d2 }
  | "y" => do
      let v := value.toNum
      let d2 ← setPath2 o.data "position" "y" v
      Except.ok { o with mesh := { o.mesh with position := { o.mesh.position with y := v } }
                         data := d2 }
  | "z" => do
      let v := value.toNum
      let d2 ← setPath2 o.data "position" "z" v
      Except.ok { o with mesh := { o.mesh with position := { o.mesh.position with z := v } }
                         data := d2 }
  | "rot-x" => do
      let v := degToRad value.toNum
      let d2 ← setPath2 o.data "rotation" "x" v
      Except.ok { o with mesh := { o.mesh with rotation := { o.mesh.rotation with x := v } }
                         data := d2 }
  | "rot-y" => do
      let v := degToRad value.toNum
      let d2 ← setPath2 o.data "rotation" "y" v
      Except.ok { o with mesh := { o.mesh with rotation := { o.mesh.rotation with y := v } }
                         data := d2 }
  | "rot-z" => do
      let v := degToRad value.toNum
      let d2 ← setPath2 o.data "rotation" "z" v
      Except.ok { o with mesh := { o.mesh with rotation := { o.mesh.rotation with z := v } }
                         data := d2 }
  | _ => Except.ok o

/-- `GridManager.snapPosition`: round x and z (and y when `includeY`) to
the nearest integer (`Math.round`, ties toward +infinity, exactly
Mathlib's `round`). -/
def GridManager.snapPosition (position : Vec3) (includeY : Bool) : Vec3 :=
  { position with
      x := (round position.x : ℤ)
      z := (round position.z : ℤ)
      y := if includeY then ((round position.y : ℤ) : ℚ) else position.y }

/-- `GridManager.snapObject`: no-op on a missing object, else snap the
mesh position and mirror x and z into `data.position`. -/
def GridManager.snapObject (editorObject : Option EditorObject) :
    Except JsError (Option EditorObject) :=
  match editorObject with
  | none => Except.ok none
  | some o => do
      let p := GridManager.snapPosition o.mesh.position false
      let d2 ← setPath2 o.data "position" "x" p.x
      let d3 ← setPath2 d2 "position" "z" p.z
      Except.ok (some { o with mesh := { o.mesh with position := p }, data := d3 })

/-- The entity model / visual node synchronization invariant: the
transform triple stored in the entity's `data` coincides with the
transform of its visual mesh node. -/
def syncOK (o : EditorObject) : Prop :=
  readVecXYZ o.data "position" = some o.mesh.position ∧
  readVecXYZ o.data "rotation" = some o.mesh.rotation ∧
  readVecXYZ o.data "scale" = some o.mesh.scale

instance (o : EditorObject) : Decidable (syncOK o) := by
  unfold syncOK; infer_instance

/-- `SetPositionCommand` state: the recorded object reference (possibly
null/undefined after deserialization), and the new/old positions. -/
structure SetPositionCommand where
  object : Option EditorObject
  newPosition : Vec3
  oldPosition : Vec3

/-- The `SetPositionCommand` constructor called with a live object:
missing `newPosition` defaults to the zero vector, missing
`oldPosition` is captured from the object's mesh. -/
def SetPositionCommand.ofObject (object : EditorObject)
    (newPosition oldPosition : Option Vec3) : SetPositionCommand :=
  { object := some object
    newPosition := newPosition.getD ⟨0, 0, 0⟩
    oldPosition := oldPosition.getD object.mesh.position }

/-- `SetPositionCommand.execute`: `this.object.mesh || this.object`
throws a `TypeError` when the recorded object is null/undefined;
otherwise the mesh position is overwritten with `newPosition` (the
entity's `data` is not touched). -/
def SetPositionCommand.execute (c : SetPositionCommand) : Except JsError EditorObject :=
  match c.object with
  | none => Except.error JsError.typeError
  | some o => Except.ok { o with mesh := { o.mesh with position := c.newPosition } }

/-- `SetPositionCommand.undo`: same dereference, restoring
`oldPosition`. -/
def SetPositionCommand.undo (c : SetPositionCommand) : Except JsError EditorObject :=
  match c.object with
  | none => Except.error JsError.typeError
  | some o => Except.ok { o with mesh := { o.mesh with position := c.oldPosition } }

/-- `SetPositionCommand.update`: merge an in-flight command by copying
its `newPosition` into this one. -/
def SetPositionCommand.update (c cmd : SetPositionCommand) : SetPositionCommand :=
  { c with newPosition := cmd.newPosition }

/-- `SetPositionCommand.fromJSON`: re-resolve the target through the
editor's id lookup (`resolve` models `editor.objectById`, `none` when
the id does not resolve) and restore the position payload. -/
def SetPositionCommand.fromJSON (resolve : String → Option EditorObject)
    (objectUuid : String) (oldPosition newPosition : Vec3) : SetPositionCommand :=
  { object := resolve objectUuid
    newPosition := newPosition
    oldPosition := oldPosition }

/-- `RemoveObjectCommand` state: recorded object, its parent node, and
the recorded sibling index. -/
structure RemoveObjectCommand (σ : Type) where
  object : Option EditorObject
  parent : Option σ
  index : ℤ

/-- `RemoveObjectCommand.execute`, with the editor collaborators passed
in (`childIndex` for `parent.children.indexOf`, `removeObject` and
`deselect` for the editor methods): guarded, so it is a no-op when the
object or parent is missing. -/
def RemoveObjectCommand.execute {σ τ : Type}
    (childIndex : σ → EditorObject → ℤ)
    (removeObject : EditorObject → τ → τ) (deselect : τ → τ)
    (c : RemoveObjectCommand σ) (st : τ) : RemoveObjectCommand σ × τ :=
  match c.object, c.parent with
  | some o, some p =>
      ({ c with index := childIndex p o }, deselect (removeObject o st))
  | _, _ => (c, st)

/-- A member command of a composite, as the history machinery sees it:
an `execute` and an `undo` state transition. -/
structure CommandObj (σ : Type) where
  execute : σ → σ
  undo : σ → σ

/-- `MultiCmdsCommand.execute`: run the member commands in list
order. -/
def MultiCmdsCommand.execute {σ : Type} (commands : List (CommandObj σ)) (st : σ) : σ :=
  commands.foldl (fun s c => c.execute s) st

/-- `MultiCmdsCommand.undo`: run the member undos from the last member
back to the first. -/
def MultiCmdsCommand.undo {σ : Type} (commands : List (CommandObj σ)) (st : σ) : σ :=
  commands.reverse.foldl (fun s c => c.undo s) st

/-- One serialized object of a scene snapshot
(`SceneSerializer.serializeObjects` body): id, a deep JSON copy of the
semantic data, and the world position / Euler rotation / scale read
from the decomposed world matrix (for the editor's scene-root objects
and exact arithmetic, the mesh transform itself). -/
def serializeObject (o : EditorObject) : Json :=
  Json.obj [("id", Json.str o.id),
            ("data", o.data),
            ("position", vec3ToJsonArr o.mesh.position),
            ("rotation", vec3ToJsonArr o.mesh.rotation),
            ("scale", vec3ToJsonArr o.mesh.scale)]

/-- `SceneSerializer.serializeObjects`. -/
def serializeObjects (objects : List EditorObject) : Json :=
  Json.obj [("objects", Json.arr (objects.map serializeObject))]

/-- `SceneSerializer.exportToJSON`: the pretty-printed JSON text of the
serialized state, represented by the value that text parses back to. -/
def exportToJSON (objects : List EditorObject) : Json :=
  serializeObjects objects

/-- `SceneSerializer.parseJSON`: `JSON.parse` in a try/catch returning
`null` on error.  A text is represented by its parse result (`none` for
a syntax error), so this is the identity on that representation. -/
def parseJSON (jsonString : Option Json) : Option Json :=
  jsonString

/-- History entry synthesized by `SceneSerializer.saveState`: the
previous and current snapshots captured by the undo/redo closure
pair. -/
abbrev HistoryEntry : Type := Json × Json

/-- State of the `undo-manager` instance plus the serializer's
`lastState` (`SceneSerializer` fields).  `pos` is `index + 1`: the
number of entries at or before the library's `index` pointer. -/
structure SceneSerializerState where
  entries : List HistoryEntry
  pos : ℕ
  limit : ℕ
  lastState : Option Json

/-- A freshly constructed `SceneSerializer(maxHistorySize)`. -/
def SceneSerializerState.init (maxHistorySize : ℕ) : SceneSerializerState :=
  { entries := [], pos := 0, limit := maxHistorySize, lastState := none }

/-- `SceneSerializer.canUndo` (`undoManager.hasUndo()`, i.e.
`index !== -1`). -/
def SceneSerializerState.canUndo (st : SceneSerializerState) : Bool :=
  decide (st.pos ≠ 0)

/-- `SceneSerializer.canRedo` (`undoManager.hasRedo()`, i.e.
`index < commands.length - 1`). -/
def SceneSerializerState.canRedo (st : SceneSerializerState) : Bool :=
  decide (st.pos < st.entries.length)

/-- `undoManager.add`: truncate the redo branch after the current index,
push the new entry, trim the front beyond the limit (when a nonzero
limit is set), and point the index at the new top. -/
def SceneSerializerState.addEntry (st : SceneSerializerState) (e : HistoryEntry) :
    SceneSerializerState :=
  let cmds := st.entries.take st.pos ++ [e]
  let cmds2 := if st.limit ≠ 0 ∧ st.limit < cmds.length
               then cmds.drop (cmds.length - st.limit) else cmds
  { st with entries := cmds2, pos := cmds2.length }

/-- `SceneSerializer.saveState`: serialize (and deep-clone) the current
objects; when a previous state exists, add an undo/redo closure pair
capturing the previous and the new snapshot; record the new snapshot as
`lastState`. -/
def SceneSerializerState.saveState (st : SceneSerializerState)
    (objects : List EditorObject) : SceneSerializerState :=
  let newState := serializeObjects objects
  match st.lastState with
  | none => { st with lastState := some newState }
  | some prevState =>
      let st2 := st.addEntry (prevState, newState)
      { st2 with lastState := some newState }

/-- `SceneSerializer.undo`: `null` and no change when `canUndo()` is
false; otherwise run the recorded undo closure — apply the previous
snapshot through the load-scene callback (when one is set), record it
as `lastState` — and return `lastState`.  The external state `scene`
(the editor's object set acted on by the callback) is threaded
explicitly. -/
def SceneSerializerState.undo {σ : Type} (cb : Option (Json → σ → σ))
    (st : SceneSerializerState) (scene : σ) :
    Option Json × SceneSerializerState × σ :=
  if st.canUndo = false then (none, st, scene)
  else
    match st.entries.get? (st.pos - 1) with
    | none => (st.lastState, st, scene)
    | some e =>
        let scene2 := match cb with
                      | some f => f e.1 scene
                      | none => scene
        (some e.1, { st with pos := st.pos - 1, lastState := some e.1 }, scene2)

/-- `SceneSerializer.redo`: symmetric to `undo`, applying the recorded
current snapshot of the entry after the index. -/
def SceneSerializerState.redo {σ : Type} (cb : Option (Json → σ → σ))
    (st : SceneSerializerState) (scene : σ) :
    Option Json × SceneSerializerState × σ :=
  if st.canRedo = false then (none, st, scene)
  else
    match st.entries.get? st.pos with
    | none => (st.lastState, st, scene)
    | some e =>
        let scene2 := match cb with
                      | some f => f e.2 scene
                      | none => scene
        (some e.2, { st with pos := st.pos + 1, lastState := some e.2 }, scene2)

/-- One iteration of the `state.objects.forEach` body of
`LevelEditor.loadScene`: create the entity from the stored fields
(`s.data.type`, the position array, `s.id`), reapply rotation and
scale, deep-copy the stored data over the entity's data, and re-resolve
the material.  Throws exactly where the JS body would throw a
`TypeError`. -/
def restoreObject (s : Json) (freshId : String) : Except JsError EditorObject := do
  let dataOpt ← jsMember s "data"
  let dataJson ← match dataOpt with
    | none => Except.error JsError.typeError
    | some d => Except.ok d
  let typeOpt ← jsMember dataJson "type"
  let typeKey : Option String := match typeOpt with
    | some (Json.str t) => some t
    | _ => none
  let posJ ← jsMember s "position"
  let pos ← readVec3Js posJ
  let idJ ← jsMember s "id"
  let idArg : Option String := match idJ with
    | some (Json.str t) => some t
    | _ => none
  let obj := ObjectFactory.create typeKey pos idArg freshId
  let rotJ ← jsMember s "rotation"
  let rot ← readVec3Js rotJ
  let sclJ ← jsMember s "scale"
  let scl ← readVec3Js sclJ
  let mtJ ← jsMember dataJson "materialType"
  let mat : Option String := match mtJ with
    | some (Json.str t) =>
        if MaterialsLibrary.has t then MaterialsLibrary.get t else obj.mesh.material
    | _ => obj.mesh.material
  Except.ok { obj with
                data := dataJson
                mesh := { obj.mesh with rotation := rot, scale := scl, material := mat } }

/-- The `forEach` loop of `LevelEditor.loadScene` over the stored
objects: on a thrown `TypeError` the entities pushed so far remain (the
error carries them). -/
def loadLoop (ss : List Json) (fresh : ℕ → String) (i : ℕ)
    (acc : List EditorObject) :
    Except (JsError × List EditorObject) (List EditorObject) :=
  match ss with
  | [] => Except.ok acc
  | s :: rest =>
      match restoreObject s (fresh i) with
      | Except.error e => Except.error (e, acc)
      | Except.ok o => loadLoop rest fresh (i + 1) (acc ++ [o])

/-- `LevelEditor.loadScene`: the live object set is cleared first; then
`state.objects` is iterated, re-creating each entity.  When
`state.objects` is missing or not an array the `forEach` dereference
throws after the clear, leaving the (partial, possibly empty) set
carried by the error.  `fresh` supplies the `generateId()` results for
objects lacking a stored id. -/
def loadScene (state : Json) (fresh : ℕ → String) :
    Except (JsError × List EditorObject) (List EditorObject) :=
  match jsMember state "objects" with
  | Except.error e => Except.error (e, [])
  | Except.ok none => Except.error (JsError.typeError, [])
  | Except.ok (some (Json.arr ss)) => loadLoop ss fresh 0 []
  | Except.ok (some _) => Except.error (JsError.typeError, [])

/-- `LevelEditor.importScene`: parse; when the result is truthy, load
the scene and save state, returning `true`; otherwise return `false`.
The result is the returned value (`none` when `loadScene` threw and the
exception propagated), the resulting live object set, and the
serializer state. -/
def importScene (json : Option Json) (objects : List EditorObject)
    (serial : SceneSerializerState) (fresh : ℕ → String) :
    Option Bool × List EditorObject × SceneSerializerState :=
  match parseJSON json with
  | none => (some false, objects, serial)
  | some s =>
      if truthy s then
        match loadScene s fresh with
        | Except.error (_, partObjs) => (none, partObjs, serial)
        | Except.ok objs2 => (some true, objs2, serial.saveState objs2)
      else (some false, objects, serial)

/-- Overwrite one named axis of a vector (used to state the effect of
the updater's per-axis writes). -/
def Vec3.setAxis (v : Vec3) (axis : String) (q : ℚ) : Vec3 :=
  if axis = "x" then { v with x := q }
  else if axis = "y" then { v with y := q }
  else if axis = "z" then { v with z := q }
  else v

/-- A member command that only logs its invocations: `execute` appends
its label to the first trace, `undo` to the second.  Used to observe
the order in which a composite command invokes its members. -/
def mkLogCmd {α : Type} (a : α) : CommandObj (List α × List α) :=
  { execute := fun st => (st.1 ++ [a], st.2)
    undo := fun st => (st.1, st.2 ++ [a]) }

/-- A concrete box entity used by witnesses and counterexamples. -/
def sampleBox : EditorObject :=
  ObjectFactory.create (some "box") ⟨0, 0, 0⟩ (some "obj_1_sample000") "obj_1_fresh0000"

/-- A concrete serializer state with one history entry, index at the
top (used by witnesses). -/
def serializerStateA : SceneSerializerState :=
  { entries := [(Json.null, Json.bool true)], pos := 1, limit := 50,
    lastState := some (Json.bool true) }

/-- The same entry with the index before it (redo available). -/
def serializerStateB : SceneSerializerState :=
  { entries := [(Json.null, Json.bool true)], pos := 0, limit := 50,
    lastState := some Json.null }

theorem lookupField_replace_same (fields : List (String × Json)) (k : String) (x : Json)
    (h : (lookupField fields k).isSome) :
    lookupField (fields.map (fun p => if p.1 = k then (p.1, x) else p)) k = some x := by
  induction fields with
  | nil => simp [lookupField] at h
  | cons a as ih =>
      by_cases hk : a.1 = k
      · simp [lookupField, hk]
      · simp only [lookupField, if_neg hk] at h
        simpa only [List.map_cons, lookupField, if_neg hk] using ih h

theorem lookupField_replace_other (fields : List (String × Json)) (k k2 : String) (x : Json)
    (hne : k2 ≠ k) :
    lookupField (fields.map (fun p => if p.1 = k then (p.1, x) else p)) k2 =
      lookupField fields k2 := by
  induction fields with
  | nil => rfl
  | cons a as ih =>
      by_cases hk : a.1 = k
      · have ha2 : ¬ a.1 = k2 := by rw [hk]; exact fun hh => hne hh.symm
        simpa only [List.map_cons, lookupField, if_pos hk, if_neg ha2] using ih
      · by_cases ha : a.1 = k2
        · simp only [List.map_cons, lookupField, if_neg hk, if_pos ha]
        · simpa only [List.map_cons, lookupField, if_neg hk, if_neg ha] using ih

theorem lookupField_append_other (fields : List (String × Json)) (k k2 : String) (x : Json)
    (hne : k2 ≠ k) :
    lookupField (fields ++ [(k, x)]) k2 = lookupField fields k2 := by
  induction fields with
  | nil =>
      have hk : ¬ k = k2 := fun hh => hne (Eq.symm hh)
      simp only [List.nil_append, lookupField, if_neg hk]
  | cons a as ih =>
      by_cases ha : a.1 = k2
      · simp only [List.cons_append, lookupField, if_pos ha]
      · simpa only [List.cons_append, lookupField, if_neg ha] using ih

theorem lookupField_append_self (fields : List (String × Json)) (k : String) (x : Json)
    (h : lookupField fields k = none) :
    lookupField (fields ++ [(k, x)]) k = some x := by
  induction fields with
  | nil => simp [lookupField]
  | cons a as ih =>
      by_cases ha : a.1 = k
      · simp [lookupField, ha] at h
      · simp only [lookupField, if_neg ha] at h
        simpa only [List.cons_append, lookupField, if_neg ha] using ih h

theorem jsSetMember_obj (fields : List (String × Json)) (k : String) (x : Json) :
    ∃ fields2, jsSetMember (Json.obj fields) k x = Except.ok (Json.obj fields2) ∧
      lookupField fields2 k = some x ∧
      (∀ k2, k2 ≠ k → lookupField fields2 k2 = lookupField fields k2) := by
  unfold jsSetMember
  by_cases h : (lookupField fields k).isSome
  · refine ⟨_, by simp [h], lookupField_replace_same fields k x h, ?_⟩
    exact fun k2 hk2 => lookupField_replace_other fields k k2 x hk2
  · have hnone : lookupField fields k = none := Option.not_isSome_iff_eq_none.mp h
    refine ⟨_, by simp [h], lookupField_append_self fields k x hnone, ?_⟩
    exact fun k2 hk2 => lookupField_append_other fields k k2 x hk2

theorem jsSetMember_readVecXYZ_other (data : Json) (k k2 : String) (x : Json) (d2 : Json)
    (hne : k2 ≠ k) (hs : jsSetMember data k x = Except.ok d2) :
    readVecXYZ d2 k2 = readVecXYZ data k2 := by
  cases data with
  | obj fields =>
      obtain ⟨fields2, hset, _, hother⟩ := jsSetMember_obj fields k x
      rw [hset] at hs
      injection hs with hs2
      subst hs2
      simp only [readVecXYZ, hother k2 hne]
  | null => simp [jsSetMember] at hs
  | bool b => simp [jsSetMember] at hs
  | num q => simp [jsSetMember] at hs
  | str s => simp [jsSetMember] at hs
  | arr xs => simp [jsSetMember] at hs

theorem setPath2_ok_of_read (data : Json) (k axis : String) (q : ℚ) (v : Vec3)
    (hr : readVecXYZ data k = some v) (ha : axis = "x" ∨ axis = "y" ∨ axis = "z") :
    ∃ d2, setPath2 data k axis q = Except.ok d2 ∧
      readVecXYZ d2 k = some (Vec3.setAxis v axis q) ∧
      (∀ k2, k2 ≠ k → readVecXYZ d2 k2 = readVecXYZ data k2) := by
  cases data with
  | obj fields =>
      simp only [readVecXYZ] at hr
      split at hr
      next pf hf =>
        split at hr
        next a b c hx hy hz =>
          injection hr with hr2
          subst hr2
          obtain ⟨pf2, hset1, hlook1, hother1⟩ := jsSetMember_obj pf axis (Json.num q)
          obtain ⟨fields2, hset2, hlook2, hother2⟩ := jsSetMember_obj fields k (Json.obj pf2)
          refine ⟨Json.obj fields2, ?_, ?_, ?_⟩
          · simp only [setPath2, jsMember, hf, hset1, hset2, bind, Except.bind]
          · rcases ha with rfl | rfl | rfl
            · have h1 : lookupField pf2 "y" = some (Json.num b) := by
                rw [hother1 "y" (by decide), hy]
              have h2 : lookupField pf2 "z" = some (Json.num c) := by
                rw [hother1 "z" (by decide), hz]
              simp [readVecXYZ, hlook2, hlook1, h1, h2, Vec3.setAxis]
            · have h1 : lookupField pf2 "x" = some (Json.num a) := by
                rw [hother1 "x" (by decide), hx]
              have h2 : lookupField pf2 "z" = some (Json.num c) := by
                rw [hother1 "z" (by decide), hz]
              simp [readVecXYZ, hlook2, hlook1, h1, h2, Vec3.setAxis]
            · have h1 : lookupField pf2 "x" = some (Json.num a) := by
                rw [hother1 "x" (by decide), hx]
              have h2 : lookupField pf2 "y" = some (Json.num b) := by
                rw [hother1 "y" (by decide), hy]
              simp [readVecXYZ, hlook2, hlook1, h1, h2, Vec3.setAxis]
          · intro k2 hk2
            simp only [readVecXYZ, hother2 k2 hk2]
        next hxyz => exact absurd hr (by simp)
      next hf1 hf2 => exact absurd hr (by simp)
  | null => exact absurd hr (by simp [readVecXYZ])
  | bool b => exact absurd hr (by simp [readVecXYZ])
  | num q0 => exact absurd hr (by simp [readVecXYZ])
  | str s => exact absurd hr (by simp [readVecXYZ])
  | arr xs => exact absurd hr (by simp [readVecXYZ])

theorem update_preserves_sync (o o2 : EditorObject) (property : String) (value : PropVal)
    (hsync : syncOK o)
    (hupd : PropertyUpdater.update o property value = Except.ok o2) : syncOK o2 := by
  obtain ⟨hp, hr, hs⟩ := hsync
  unfold PropertyUpdater.update at hupd
  split at hupd
  · -- "materialType"
    split at hupd
    · rename_i s
      split at hupd
      · cases hset : jsSetMember o.data "materialType" (Json.str s) with
        | error e =>
            rw [hset] at hupd; simp only [bind, Except.bind] at hupd
            exact Except.noConfusion hupd
        | ok d2 =>
            rw [hset] at hupd; simp only [bind, Except.bind] at hupd
            injection hupd with h2; subst h2
            refine ⟨?_, ?_, ?_⟩
            · rw [jsSetMember_readVecXYZ_other o.data "materialType" "position" _ d2 (by decide) hset]
              exact hp
            · rw [jsSetMember_readVecXYZ_other o.data "materialType" "rotation" _ d2 (by decide) hset]
              exact hr
            · rw [jsSetMember_readVecXYZ_other o.data "materialType" "scale" _ d2 (by decide) hset]
              exact hs
      · injection hupd with h2; subst h2; exact ⟨hp, hr, hs⟩
    · injection hupd with h2; subst h2; exact ⟨hp, hr, hs⟩
  · -- "width"
    cases hw : getPath2Num o.data "size" "width" with
    | error e =>
        rw [hw] at hupd; simp only [bind, Except.bind] at hupd
        exact Except.noConfusion hupd
    | ok w =>
        rw [hw] at hupd; simp only [bind, Except.bind] at hupd
        obtain ⟨d2, hset, hread1, hread2⟩ :=
          setPath2_ok_of_read o.data "scale" "x" (value.toNum / w) o.mesh.scale hs (Or.inl rfl)
        rw [hset] at hupd; simp only [bind, Except.bind] at hupd
        injection hupd with h2; subst h2
        refine ⟨?_, ?_, ?_⟩
        · rw [hread2 "position" (by decide)]; exact hp
        · rw [hread2 "rotation" (by decide)]; exact hr
        · rw [hread1]; simp [Vec3.setAxis]
  · -- "height"
    cases hw : getPath2Num o.data "size" "height" with
    | error e =>
        rw [hw] at hupd; simp only [bind, Except.bind] at hupd
        exact Except.noConfusion hupd
    | ok w =>
        rw [hw] at hupd; simp only [bind, Except.bind] at hupd
        obtain ⟨d2, hset, hread1, hread2⟩ :=
          setPath2_ok_of_read o.data "scale" "y" (value.toNum / w) o.mesh.scale hs (Or.inr (Or.inl rfl))
        rw [hset] at hupd; simp only [bind, Except.bind] at hupd
        injection hupd with h2; subst h2
        refine ⟨?_, ?_, ?_⟩
        · rw [hread2 "position" (by decide)]; exact hp
        · rw [hread2 "rotation" (by decide)]; exact hr
        · rw [hread1]; simp [Vec3.setAxis]
  · -- "depth"
    cases hw : getPath2Num o.data "size" "depth" with
    | error e =>
        rw [hw] at hupd; simp only [bind, Except.bind] at hupd
        exact Except.noConfusion hupd
    | ok w =>
        rw [hw] at hupd; simp only [bind, Except.bind] at hupd
        obtain ⟨d2, hset, hread1, hread2⟩ :=
          setPath2_ok_of_read o.data "scale" "z" (value.toNum / w) o.mesh.scale hs (Or.inr (Or.inr rfl))
        rw [hset] at hupd; simp only [bind, Except.bind] at hupd
        injection hupd with h2; subst h2
        refine ⟨?_, ?_, ?_⟩
        · rw [hread2 "position" (by decide)]; exact hp
        · rw [hread2 "rotation" (by decide)]; exact hr
        · rw [hread1]; simp [Vec3.setAxis]
  · -- "x"
    dsimp only at hupd
    obtain ⟨d2, hset, hread1, hread2⟩ :=
      setPath2_ok_of_read o.data "position" "x" value.toNum o.mesh.position hp (Or.inl rfl)
    rw [hset] at hupd; simp only [bind, Except.bind] at hupd
    injection hupd with h2; subst h2
    refine ⟨?_, ?_, ?_⟩
    · rw [hread1]; simp [Vec3.setAxis]
    · rw [hread2 "rotation" (by decide)]; exact hr
    · rw [hread2 "scale" (by decide)]; exact hs
  · -- "y"
    dsimp only at hupd
    obtain ⟨d2, hset, hread1, hread2⟩ :=
      setPath2_ok_of_read o.data "position" "y" value.toNum o.mesh.position hp (Or.inr (Or.inl rfl))
    rw [hset] at hupd; simp only [bind, Except.bind] at hupd
    injection hupd with h2; subst h2
    refine ⟨?_, ?_, ?_⟩
    · rw [hread1]; simp [Vec3.setAxis]
    · rw [hread2 "rotation" (by decide)]; exact hr
    · rw [hread2 "scale" (by decide)]; exact hs
  · -- "z"
    dsimp only at hupd
    obtain ⟨d2, hset, hread1, hread2⟩ :=
      setPath2_ok_of_read o.data "position" "z" value.toNum o.mesh.position hp (Or.inr (Or.inr rfl))
    rw [hset] at hupd; simp only [bind, Except.bind] at hupd
    injection hupd with h2; subst h2
    refine ⟨?_, ?_, ?_⟩
    · rw [hread1]; simp [Vec3.setAxis]
    · rw [hread2 "rotation" (by decide)]; exact hr
    · rw [hread2 "scale" (by decide)]; exact hs
  · -- "rot-x"
    dsimp only at hupd
    obtain ⟨d2, hset, hread1, hread2⟩ :=
      setPath2_ok_of_read o.data "rotation" "x" (degToRad value.toNum) o.mesh.rotation hr (Or.inl rfl)
    rw [hset] at hupd; simp only [bind, Except.bind] at hupd
    injection hupd with h2; subst h2
    refine ⟨?_, ?_, ?_⟩
    · rw [hread2 "position" (by decide)]; exact hp
    · rw [hread1]; simp [Vec3.setAxis]
    · rw [hread2 "scale" (by decide)]; exact hs
  · -- "rot-y"
    dsimp only at hupd
    obtain ⟨d2, hset, hread1, hread2⟩ :=
      setPath2_ok_of_read o.data "rotation" "y" (degToRad value.toNum) o.mesh.rotation hr (Or.inr (Or.inl rfl))
    rw [hset] at hupd; simp only [bind, Except.bind] at hupd
    injection hupd with h2; subst h2
    refine ⟨?_, ?_, ?_⟩
    · rw [hread2 "position" (by decide)]; exact hp
    · rw [hread1]; simp [Vec3.setAxis]
    · rw [hread2 "scale" (by decide)]; exact hs
  · -- "rot-z"
    dsimp only at hupd
    obtain ⟨d2, hset, hread1, hread2⟩ :=
      setPath2_ok_of_read o.data "rotation" "z" (degToRad value.toNum) o.mesh.rotation hr (Or.inr (Or.inr rfl))
    rw [hset] at hupd; simp only [bind, Except.bind] at hupd
    injection hupd with h2; subst h2
    refine ⟨?_, ?_, ?_⟩
    · rw [hread2 "position" (by decide)]; exact hp
    · rw [hread1]; simp [Vec3.setAxis]
    · rw [hread2 "scale" (by decide)]; exact hs
  · -- default: no case matched, object unchanged
    injection hupd with h2; subst h2; exact ⟨hp, hr, hs⟩

theorem snapObject_preserves_sync (o o2 : EditorObject) (hsync : syncOK o)
    (hsnap : GridManager.snapObject (some o) = Except.ok (some o2)) : syncOK o2 := by
  obtain ⟨hp, hr, hs⟩ := hsync
  unfold GridManager.snapObject at hsnap
  dsimp only at hsnap
  obtain ⟨d2, hset1, hread1, hother1⟩ :=
    setPath2_ok_of_read o.data "position" "x"
      (GridManager.snapPosition o.mesh.position false).x
      o.mesh.position hp (Or.inl rfl)
  rw [hset1] at hsnap; simp only [bind, Except.bind] at hsnap
  obtain ⟨d3, hset2, hread2, hother2⟩ :=
    setPath2_ok_of_read d2 "position" "z"
      (GridManager.snapPosition o.mesh.position false).z
      (Vec3.setAxis o.mesh.position "x" (GridManager.snapPosition o.mesh.position false).x)
      hread1 (Or.inr (Or.inr rfl))
  rw [hset2] at hsnap; simp only [bind, Except.bind] at hsnap
  injection hsnap with h2
  injection h2 with h3
  subst h3
  refine ⟨?_, ?_, ?_⟩
  · rw [hread2]
    simp [Vec3.setAxis, GridManager.snapPosition]
  · rw [hother2 "rotation" (by decide), hother1 "rotation" (by decide)]; exact hr
  · rw [hother2 "scale" (by decide), hother1 "scale" (by decide)]; exact hs

/-- Claim C4 (amended): after a `PropertyUpdater.update` or a
`GridManager.snapObject` that completes, the transform values stored in
the entity's `data` are identical to those of its visual mesh node
(assuming they were in sync beforehand); but `SetPositionCommand`'s
`execute` and `undo` overwrite only the mesh position and leave the
entity `data` untouched, so the invariant does not survive those
commands when the written position differs from the recorded one. -/
theorem claim_C4 :
    (∀ (o o2 : EditorObject) (property : String) (value : PropVal),
        syncOK o → PropertyUpdater.update o property value = Except.ok o2 → syncOK o2) ∧
    (∀ (o o2 : EditorObject),
        syncOK o → GridManager.snapObject (some o) = Except.ok (some o2) → syncOK o2) ∧
    (∀ (o : EditorObject) (newP : Vec3) (oldP : Option Vec3),
        SetPositionCommand.execute (SetPositionCommand.ofObject o (some newP) oldP) =
          Except.ok { o with mesh := { o.mesh with position := newP } } ∧
        SetPositionCommand.undo (SetPositionCommand.ofObject o (some newP) oldP) =
          Except.ok { o with mesh := { o.mesh with position := oldP.getD o.mesh.position } }) := by
  refine ⟨?_, ?_, ?_⟩
  · exact fun o o2 property value hsync hupd =>
      update_preserves_sync o o2 property value hsync hupd
  · exact fun o o2 hsync hsnap => snapObject_preserves_sync o o2 hsync hsnap
  · exact fun o newP oldP => ⟨rfl, rfl⟩

/-- Claim C4 counterexample: a freshly created box entity satisfies the
data/mesh synchronization invariant, but after
`SetPositionCommand.execute` moves its mesh to (5,0,5) the entity
`data` still records the old transform, so the invariant is violated
right after the command completes. -/
theorem claim_C4_counterexample :
    syncOK sampleBox ∧
    (SetPositionCommand.execute
        (SetPositionCommand.ofObject sampleBox (some ⟨5, 0, 5⟩) none)).map
      (fun o => decide (syncOK o)) = Except.ok false := by
  exact ⟨by decide, by rfl⟩

/-- Claim C4 witness: the amended theorem applied to the sample box
entity, for a position write through the property updater and for a
grid snap. -/
theorem claim_C4_witness :
    syncOK sampleBox ∧
    (PropertyUpdater.update sampleBox "x" (PropVal.num 7)).map
      (fun o => decide (syncOK o)) = Except.ok true ∧
    (GridManager.snapObject (some sampleBox) = Except.ok (some sampleBox) ∧ syncOK sampleBox) := by
  have hsnap : GridManager.snapObject (some sampleBox) = Except.ok (some sampleBox) := by
    have h0 : round (0 : ℚ) = 0 := by norm_num
    simp only [GridManager.snapObject, GridManager.snapPosition, sampleBox,
      ObjectFactory.create, MaterialsLibrary.get, MaterialsLibrary.has,
      MaterialsLibrary.names, OBJECT_TYPES, boxTypeConfig, vecToJsonXYZ,
      setPath2, jsMember, jsSetMember, lookupField, bind, Except.bind, h0]
    rfl
  refine ⟨by decide, ?_, hsnap, claim_C4.2.1 sampleBox sampleBox (by decide) hsnap⟩
  have h2 := claim_C4.1 sampleBox _ "x" (PropVal.num 7) (by decide) rfl
  exact congrArg Except.ok (decide_eq_true h2)

theorem multi_execute_log {α : Type} (labels : List α) (st : List α × List α) :
    MultiCmdsCommand.execute (labels.map mkLogCmd) st = (st.1 ++ labels, st.2) := by
  induction labels generalizing st with
  | nil => simp [MultiCmdsCommand.execute]
  | cons a rest ih =>
      have h1 : MultiCmdsCommand.execute ((a :: rest).map mkLogCmd) st
          = MultiCmdsCommand.execute (rest.map mkLogCmd) (st.1 ++ [a], st.2) := rfl
      rw [h1, ih]
      simp

theorem undo_foldl_log {α : Type} (ls : List α) (st : List α × List α) :
    List.foldl (fun s c => c.undo s) st (ls.map mkLogCmd) = (st.1, st.2 ++ ls) := by
  induction ls generalizing st with
  | nil => simp
  | cons a rest ih =>
      have h1 : List.foldl (fun s c => c.undo s) st ((a :: rest).map mkLogCmd)
          = List.foldl (fun s c => c.undo s) (st.1, st.2 ++ [a]) (rest.map mkLogCmd) := rfl
      rw [h1, ih]
      simp

theorem multi_undo_log {α : Type} (labels : List α) (st : List α × List α) :
    MultiCmdsCommand.undo (labels.map mkLogCmd) st = (st.1, st.2 ++ labels.reverse) := by
  unfold MultiCmdsCommand.undo
  rw [show (labels.map mkLogCmd).reverse = labels.reverse.map mkLogCmd from
        (List.map_reverse mkLogCmd labels).symm]
  exact undo_foldl_log labels.reverse st

/-- Claim C5: a composite command (`MultiCmdsCommand`) invokes the
`execute` of its member commands in their original list order, and its
`undo` invokes the members' `undo` in exactly the reverse order —
observed through members that log their invocations. -/
theorem claim_C5 {α : Type} (labels : List α) :
    MultiCmdsCommand.execute (labels.map mkLogCmd) ([], []) = (labels, []) ∧
    MultiCmdsCommand.undo (labels.map mkLogCmd) ([], []) = ([], labels.reverse) := by
  constructor
  · simpa using multi_execute_log labels ([], [])
  · simpa using multi_undo_log labels ([], [])

/-- Claim C6: three consecutive mergeable `SetPositionCommand`s on the
same target, merged into the first via `update`, behave as a single
command: its `undo` restores the position the target had before the
first command (not an intermediate one), and its `execute` applies the
last position. -/
theorem claim_C6 (e : EditorObject) (p1 p2 p3 : Vec3) :
    SetPositionCommand.undo
        (SetPositionCommand.update
          (SetPositionCommand.update (SetPositionCommand.ofObject e (some p1) none)
            (SetPositionCommand.ofObject e (some p2) none))
          (SetPositionCommand.ofObject e (some p3) none)) = Except.ok e ∧
    SetPositionCommand.execute
        (SetPositionCommand.update
          (SetPositionCommand.update (SetPositionCommand.ofObject e (some p1) none)
            (SetPositionCommand.ofObject e (some p2) none))
          (SetPositionCommand.ofObject e (some p3) none)) =
      Except.ok { e with mesh := { e.mesh with position := p3 } } :=
  ⟨rfl, rfl⟩

/-- Claim C2 (amended): a command whose recorded target no longer
resolves is not uniformly a safe no-op.  `RemoveObjectCommand.execute`
guards its target and parent and is a no-op, but
`SetPositionCommand.execute` and `undo` dereference the null object
reference (`this.object.mesh`) and throw a `TypeError`. -/
theorem claim_C2 :
    (∀ (c : SetPositionCommand), c.object = none →
        SetPositionCommand.execute c = Except.error JsError.typeError ∧
        SetPositionCommand.undo c = Except.error JsError.typeError) ∧
    (∀ (resolve : String → Option EditorObject) (objectUuid : String) (oldP newP : Vec3),
        resolve objectUuid = none →
        SetPositionCommand.execute
            (SetPositionCommand.fromJSON resolve objectUuid oldP newP) =
          Except.error JsError.typeError ∧
        SetPositionCommand.undo
            (SetPositionCommand.fromJSON resolve objectUuid oldP newP) =
          Except.error JsError.typeError) ∧
    (∀ (σ τ : Type) (childIndex : σ → EditorObject → ℤ)
        (removeObject : EditorObject → τ → τ) (deselect : τ → τ)
        (c : RemoveObjectCommand σ) (st : τ),
        c.object = none ∨ c.parent = none →
        RemoveObjectCommand.execute childIndex removeObject deselect c st = (c, st)) := by
  refine ⟨?_, ?_, ?_⟩
  · intro c h
    exact ⟨by simp [SetPositionCommand.execute, h], by simp [SetPositionCommand.undo, h]⟩
  · intro resolve objectUuid oldP newP h
    exact ⟨by simp [SetPositionCommand.execute, SetPositionCommand.fromJSON, h],
           by simp [SetPositionCommand.undo, SetPositionCommand.fromJSON, h]⟩
  · intro σ τ childIndex removeObject deselect c st h
    obtain ⟨obj, par, idx⟩ := c
    dsimp only at h
    rcases h with rfl | rfl
    · rfl
    · cases obj <;> rfl

/-- Claim C2 counterexample: a `SetPositionCommand` deserialized in a
scene where its recorded id does not resolve holds a null object
reference, and both `undo()` and `execute()` throw a `TypeError`
instead of being a no-op. -/
theorem claim_C2_counterexample :
    (SetPositionCommand.fromJSON (fun _ => none) "obj_1_missing00"
        ⟨0, 0, 0⟩ ⟨5, 0, 5⟩).object = none ∧
    SetPositionCommand.undo
        (SetPositionCommand.fromJSON (fun _ => none) "obj_1_missing00"
          ⟨0, 0, 0⟩ ⟨5, 0, 5⟩) = Except.error JsError.typeError ∧
    SetPositionCommand.execute
        (SetPositionCommand.fromJSON (fun _ => none) "obj_1_missing00"
          ⟨0, 0, 0⟩ ⟨5, 0, 5⟩) = Except.error JsError.typeError :=
  ⟨rfl, rfl, rfl⟩

/-- Claim C2 witness: the amended theorem applied to a concrete
unresolvable command and a concrete guarded remove command. -/
theorem claim_C2_witness :
    (SetPositionCommand.execute
        (SetPositionCommand.fromJSON (fun _ => none) "obj_2_gone000000"
          ⟨1, 1, 1⟩ ⟨2, 2, 2⟩) = Except.error JsError.typeError ∧
     SetPositionCommand.undo
        (SetPositionCommand.fromJSON (fun _ => none) "obj_2_gone000000"
          ⟨1, 1, 1⟩ ⟨2, 2, 2⟩) = Except.error JsError.typeError) ∧
    RemoveObjectCommand.execute (fun (_ : List EditorObject) (_ : EditorObject) => (-1 : ℤ))
        (fun _ st => st) (fun st => st)
        ({ object := none, parent := none, index := -1 } : RemoveObjectCommand (List EditorObject))
        ([] : List EditorObject) =
      ({ object := none, parent := none, index := -1 }, []) := by
  refine ⟨claim_C2.2.1 (fun _ => none) "obj_2_gone000000" ⟨1, 1, 1⟩ ⟨2, 2, 2⟩ rfl, ?_⟩
  exact claim_C2.2.2 (List EditorObject) (List EditorObject)
    (fun _ _ => (-1 : ℤ)) (fun _ st => st) (fun st => st) _ _ (Or.inl rfl)

/-- Claim C8: `ObjectFactory.create` never fails; when the type key is
not in `OBJECT_TYPES`, the created entity carries the default (box)
type's configuration: its geometry, its material, and its size. -/
theorem claim_C8 (type : Option String) (position : Vec3) (id : Option String)
    (freshId : String) (h : type.bind OBJECT_TYPES = none) :
    (ObjectFactory.create type position id freshId).mesh.geometry = boxTypeConfig.geometry ∧
    (ObjectFactory.create type position id freshId).mesh.material =
      MaterialsLibrary.get boxTypeConfig.material ∧
    jsMember (ObjectFactory.create type position id freshId).data "size" =
      Except.ok (some boxTypeConfig.size) ∧
    jsMember (ObjectFactory.create type position id freshId).data "materialType" =
      Except.ok (some (Json.str boxTypeConfig.material)) := by
  unfold ObjectFactory.create
  rw [h]
  cases type with
  | none => exact ⟨rfl, rfl, rfl, rfl⟩
  | some t => exact ⟨rfl, rfl, rfl, rfl⟩

/-- Claim C8 witness: creating an entity with the unregistered type key
`"mystery"` succeeds and carries the box configuration. -/
theorem claim_C8_witness :
    ((some "mystery").bind OBJECT_TYPES = none) ∧
    ((ObjectFactory.create (some "mystery") ⟨1, 2, 3⟩ none "obj_9_fresh00000").mesh.geometry =
        boxTypeConfig.geometry ∧
      (ObjectFactory.create (some "mystery") ⟨1, 2, 3⟩ none "obj_9_fresh00000").mesh.material =
        MaterialsLibrary.get boxTypeConfig.material ∧
      jsMember (ObjectFactory.create (some "mystery") ⟨1, 2, 3⟩ none "obj_9_fresh00000").data
          "size" = Except.ok (some boxTypeConfig.size) ∧
      jsMember (ObjectFactory.create (some "mystery") ⟨1, 2, 3⟩ none "obj_9_fresh00000").data
          "materialType" = Except.ok (some (Json.str boxTypeConfig.material))) :=
  ⟨rfl, claim_C8 (some "mystery") ⟨1, 2, 3⟩ none "obj_9_fresh00000" rfl⟩

/-- Claim C7: `SceneSerializer.undo` returns `null` and changes nothing
when no undo is available, and `redo` symmetrically; otherwise each
applies the corresponding recorded snapshot transition through the
load-scene callback, records the snapshot as `lastState`, and returns
it. -/
theorem claim_C7 {σ : Type} (cb : Json → σ → σ) (st : SceneSerializerState) (scene : σ) :
    (st.canUndo = false →
        SceneSerializerState.undo (some cb) st scene = (none, st, scene)) ∧
    (st.canRedo = false →
        SceneSerializerState.redo (some cb) st scene = (none, st, scene)) ∧
    (∀ e, st.canUndo = true → st.entries.get? (st.pos - 1) = some e →
        SceneSerializerState.undo (some cb) st scene =
          (some e.1, { st with pos := st.pos - 1, lastState := some e.1 }, cb e.1 scene)) ∧
    (∀ e, st.canRedo = true → st.entries.get? st.pos = some e →
        SceneSerializerState.redo (some cb) st scene =
          (some e.2, { st with pos := st.pos + 1, lastState := some e.2 }, cb e.2 scene)) := by
  refine ⟨?_, ?_, ?_, ?_⟩
  · intro h; simp [SceneSerializerState.undo, h]
  · intro h; simp [SceneSerializerState.redo, h]
  · intro e h1 h2
    rw [List.get?_eq_getElem?] at h2
    simp [SceneSerializerState.undo, h1, h2]
  · intro e h1 h2
    rw [List.get?_eq_getElem?] at h2
    simp [SceneSerializerState.redo, h1, h2]

/-- Claim C7 witness: the theorem applied to a fresh serializer (both
no-ops) and to concrete one-entry states (undo applies the previous
snapshot, redo the current one). -/
theorem claim_C7_witness :
    ((SceneSerializerState.init 50).canUndo = false ∧
      SceneSerializerState.undo (some (fun (_ : Json) (n : ℕ) => n + 1))
          (SceneSerializerState.init 50) 0 = (none, SceneSerializerState.init 50, 0)) ∧
    ((SceneSerializerState.init 50).canRedo = false ∧
      SceneSerializerState.redo (some (fun (_ : Json) (n : ℕ) => n + 1))
          (SceneSerializerState.init 50) 0 = (none, SceneSerializerState.init 50, 0)) ∧
    (serializerStateA.canUndo = true ∧
      SceneSerializerState.undo (some (fun (_ : Json) (n : ℕ) => n + 1))
          serializerStateA 0 =
        (some Json.null,
         { serializerStateA with pos := 0, lastState := some Json.null }, 1)) ∧
    (serializerStateB.canRedo = true ∧
      SceneSerializerState.redo (some (fun (_ : Json) (n : ℕ) => n + 1))
          serializerStateB 0 =
        (some (Json.bool true),
         { serializerStateB with pos := 1, lastState := some (Json.bool true) }, 1)) := by
  refine ⟨⟨rfl, ?_⟩, ⟨rfl, ?_⟩, ⟨rfl, ?_⟩, ⟨rfl, ?_⟩⟩
  · exact (claim_C7 (fun _ n => n + 1) (SceneSerializerState.init 50) 0).1 rfl
  · exact (claim_C7 (fun _ n => n + 1) (SceneSerializerState.init 50) 0).2.1 rfl
  · exact (claim_C7 (fun _ n => n + 1) serializerStateA 0).2.2.1
      (Json.null, Json.bool true) rfl rfl
  · exact (claim_C7 (fun _ n => n + 1) serializerStateB 0).2.2.2
      (Json.null, Json.bool true) rfl rfl

/-- Claim C10: the first `saveState` on a freshly constructed
serializer records the snapshot as `lastState` but synthesizes no
undo/redo entry — `canUndo()` and `canRedo()` are both false after it;
an entry is added exactly when a previous snapshot exists, and then it
becomes undoable. -/
theorem claim_C10 :
    (∀ (maxHistorySize : ℕ) (objects : List EditorObject),
        ((SceneSerializerState.init maxHistorySize).saveState objects).canUndo = false ∧
        ((SceneSerializerState.init maxHistorySize).saveState objects).canRedo = false ∧
        ((SceneSerializerState.init maxHistorySize).saveState objects).lastState =
          some (serializeObjects objects) ∧
        ((SceneSerializerState.init maxHistorySize).saveState objects).entries = []) ∧
    (∀ (st : SceneSerializerState) (objects : List EditorObject),
        st.lastState = none → (st.saveState objects).entries = st.entries) ∧
    (∀ (st : SceneSerializerState) (objects : List EditorObject) (prevState : Json),
        st.lastState = some prevState →
        ∃ rest, (st.saveState objects).entries =
            rest ++ [(prevState, serializeObjects objects)] ∧
          (st.saveState objects).canUndo = true) := by
  refine ⟨?_, ?_, ?_⟩
  · intro maxHistorySize objects
    exact ⟨rfl, rfl, rfl, rfl⟩
  · intro st objects h
    simp [SceneSerializerState.saveState, h]
  · intro st objects prevState h
    simp only [SceneSerializerState.saveState, h, SceneSerializerState.addEntry]
    by_cases hc : st.limit ≠ 0 ∧
        st.limit < (st.entries.take st.pos ++ [(prevState, serializeObjects objects)]).length
    · rw [if_pos hc]
      have hle : (st.entries.take st.pos ++
            [(prevState, serializeObjects objects)]).length - st.limit ≤
          (st.entries.take st.pos).length := by
        have h1 := hc.1
        have h2 := hc.2
        simp only [List.length_append, List.length_cons, List.length_nil] at h2 ⊢
        omega
      refine ⟨(st.entries.take st.pos).drop
          ((st.entries.take st.pos ++ [(prevState, serializeObjects objects)]).length -
            st.limit), ?_, ?_⟩
      · exact List.drop_append_of_le_length hle
      · simp only [SceneSerializerState.canUndo, List.length_drop, decide_eq_true_eq]
        have h1 := hc.1
        have h2 := hc.2
        simp only [List.length_append, List.length_cons, List.length_nil] at h2 ⊢
        omega
    · rw [if_neg hc]
      refine ⟨st.entries.take st.pos, rfl, ?_⟩
      simp [SceneSerializerState.canUndo]

/-- Claim C10 witness: the theorem applied to a fresh serializer of
capacity 50 with an empty scene, and to a state with a previous
snapshot. -/
theorem claim_C10_witness :
    ((SceneSerializerState.init 50).saveState []).canUndo = false ∧
    ((SceneSerializerState.init 50).saveState []).canRedo = false ∧
    ((SceneSerializerState.init 50).saveState []).entries = [] ∧
    (serializerStateA.saveState []).canUndo = true := by
  obtain ⟨h1, h2, h3⟩ := claim_C10
  obtain ⟨ha, hb, _, hd⟩ := h1 50 []
  obtain ⟨rest, _, hf⟩ := h3 serializerStateA [] (Json.bool true) rfl
  exact ⟨ha, hb, hd, hf⟩

theorem base36DigitChar_injective : Function.Injective base36DigitChar := by
  intro a b
  revert a b
  decide

theorem generateId_suffix (now : ℕ) (ds : List (Fin 36)) :
    ObjectFactory.generateId now ds =
      "obj_" ++ toString now ++ "_" ++ String.mk ((ds.take 9).map base36DigitChar) := by
  by_cases hd : ds.isEmpty
  · rw [List.isEmpty_iff.mp hd]
    rfl
  · unfold ObjectFactory.generateId substrJs randomToStringBase36
    rw [if_neg hd]
    have htl : ("0." ++ String.mk (List.map base36DigitChar ds)).toList
        = '0' :: '.' :: List.map base36DigitChar ds := by
      simp [String.toList, String.data_append]
    rw [htl]
    simp [List.map_take]

theorem generateId_suffix_length (ds : List (Fin 36)) :
    (String.mk ((ds.take 9).map base36DigitChar)).length = min 9 ds.length := by
  have h1 : (String.mk ((ds.take 9).map base36DigitChar)).length
      = ((ds.take 9).map base36DigitChar).length := rfl
  rw [h1, List.length_map, List.length_take]

/-- Claim C9 (amended): every generated id has the form
`obj_<ms>_<suffix>` where the suffix is the random value's base-36
fractional expansion truncated to at most nine characters — exactly
nine only when the expansion has at least nine digits, shorter
otherwise — and two ids generated in the same millisecond are distinct
whenever the random values differ within their first nine digits
(random values that agree on those nine digits collide). -/
theorem claim_C9 :
    (∀ (now : ℕ) (ds : List (Fin 36)),
        ObjectFactory.generateId now ds =
          "obj_" ++ toString now ++ "_" ++ String.mk ((ds.take 9).map base36DigitChar) ∧
        (String.mk ((ds.take 9).map base36DigitChar)).length = min 9 ds.length) ∧
    (∀ (now : ℕ) (d1 d2 : List (Fin 36)), d1.take 9 ≠ d2.take 9 →
        ObjectFactory.generateId now d1 ≠ ObjectFactory.generateId now d2) := by
  constructor
  · exact fun now ds => ⟨generateId_suffix now ds, generateId_suffix_length ds⟩
  · intro now d1 d2 hne heq
    rw [generateId_suffix now d1, generateId_suffix now d2] at heq
    have hdata := congrArg String.data heq
    simp only [String.data_append] at hdata
    have hsuffix : (d1.take 9).map base36DigitChar = (d2.take 9).map base36DigitChar :=
      List.append_cancel_left hdata
    exact hne (List.map_injective_iff.mpr base36DigitChar_injective hsuffix)

/-- Claim C9 counterexample: `Math.random()` can return exactly 0.5,
whose base-36 text is `"0.i"`; the generated suffix is then the single
character `i`, not nine characters.  And two distinct random values
that agree on their first nine base-36 fractional digits (here
0.000000000 1… and 0.000000000 2…) produce the same id within the same
millisecond. -/
theorem claim_C9_counterexample :
    ObjectFactory.generateId 1700000000000 [(18 : Fin 36)] = "obj_1700000000000_i" ∧
    (substrJs (randomToStringBase36 [(18 : Fin 36)]) 2 9).length = 1 ∧
    (List.replicate 9 (0 : Fin 36) ++ [(1 : Fin 36)]) ≠
      (List.replicate 9 (0 : Fin 36) ++ [(2 : Fin 36)]) ∧
    ObjectFactory.generateId 42 (List.replicate 9 (0 : Fin 36) ++ [(1 : Fin 36)]) =
      ObjectFactory.generateId 42 (List.replicate 9 (0 : Fin 36) ++ [(2 : Fin 36)]) := by
  refine ⟨rfl, rfl, by decide, rfl⟩

/-- Claim C9 witness: the amended theorem applied to a one-digit random
value (suffix `"5"`, length `min 9 1 = 1`) and to two random values
differing in their first nine digits. -/
theorem claim_C9_witness :
    (ObjectFactory.generateId 7 [(5 : Fin 36)] =
        "obj_" ++ toString 7 ++ "_" ++
          String.mk ((([(5 : Fin 36)]).take 9).map base36DigitChar) ∧
      (String.mk ((([(5 : Fin 36)]).take 9).map base36DigitChar)).length =
        min 9 ([(5 : Fin 36)]).length) ∧
    (([(1 : Fin 36)]).take 9 ≠ ([(2 : Fin 36)]).take 9) ∧
    ObjectFactory.generateId 7 [(1 : Fin 36)] ≠ ObjectFactory.generateId 7 [(2 : Fin 36)] := by
  exact ⟨claim_C9.1 7 [(5 : Fin 36)], by decide, claim_C9.2 7 [(1 : Fin 36)] [(2 : Fin 36)] (by decide)⟩

/-- Claim C3 (amended): when the JSON text fails to parse (or parses to
a falsy value such as `null`), `importScene` returns `false` and the
live entity set and serializer are untouched; but when the text parses
to a truthy value whose `objects` member is missing, `loadScene` clears
the live entity set before failing, so the scene is left empty rather
than as it was — restore is all-or-nothing only for parse failures. -/
theorem claim_C3 :
    (∀ (objects : List EditorObject) (serial : SceneSerializerState) (fresh : ℕ → String),
        importScene none objects serial fresh = (some false, objects, serial)) ∧
    (∀ (s : Json) (objects : List EditorObject) (serial : SceneSerializerState)
        (fresh : ℕ → String), truthy s = false →
        importScene (some s) objects serial fresh = (some false, objects, serial)) ∧
    (∀ (s : Json) (objects : List EditorObject) (serial : SceneSerializerState)
        (fresh : ℕ → String), truthy s = true → jsMember s "objects" = Except.ok none →
        importScene (some s) objects serial fresh = (none, [], serial)) := by
  refine ⟨?_, ?_, ?_⟩
  · intro objects serial fresh
    rfl
  · intro s objects serial fresh h
    simp [importScene, parseJSON, h]
  · intro s objects serial fresh h1 h2
    simp [importScene, parseJSON, loadScene, h1, h2]

/-- Claim C3 counterexample: the text `"{}"` parses successfully to a
truthy object without an `objects` array; importing it into a scene
holding one entity throws after the clear, leaving the live entity set
empty instead of leaving it as it was — partial application occurs. -/
theorem claim_C3_counterexample :
    truthy (Json.obj []) = true ∧
    importScene (some (Json.obj [])) [sampleBox] (SceneSerializerState.init 50)
        (fun _ => "obj_3_fresh00000") =
      (none, [], SceneSerializerState.init 50) ∧
    [sampleBox] ≠ ([] : List EditorObject) :=
  ⟨rfl, rfl, List.cons_ne_nil _ _⟩

/-- Claim C3 witness: the amended theorem applied to a parse failure, a
falsy parse result, and a truthy object lacking the `objects` array. -/
theorem claim_C3_witness :
    importScene none [sampleBox] (SceneSerializerState.init 50) (fun _ => "obj_3_fresh00001") =
      (some false, [sampleBox], SceneSerializerState.init 50) ∧
    (truthy Json.null = false ∧
      importScene (some Json.null) [sampleBox] (SceneSerializerState.init 50)
          (fun _ => "obj_3_fresh00001") =
        (some false, [sampleBox], SceneSerializerState.init 50)) ∧
    (truthy (Json.obj []) = true ∧ jsMember (Json.obj []) "objects" = Except.ok none ∧
      importScene (some (Json.obj [])) [sampleBox] (SceneSerializerState.init 50)
          (fun _ => "obj_3_fresh00001") =
        (none, [], SceneSerializerState.init 50)) := by
  refine ⟨?_, ⟨rfl, ?_⟩, ⟨rfl, rfl, ?_⟩⟩
  · exact claim_C3.1 [sampleBox] (SceneSerializerState.init 50) (fun _ => "obj_3_fresh00001")
  · exact claim_C3.2.1 Json.null [sampleBox] (SceneSerializerState.init 50)
      (fun _ => "obj_3_fresh00001") rfl
  · exact claim_C3.2.2 (Json.obj []) [sampleBox] (SceneSerializerState.init 50)
      (fun _ => "obj_3_fresh00001") rfl rfl

theorem vec3_close_refl (v : Vec3) : Vec3.close v v := by
  refine ⟨?_, ?_, ?_⟩ <;> simp [withinTol]

theorem restoreObject_serializeObject (o : EditorObject) (freshId : String)
    (h : o.data.isObj = true) :
    ∃ o2 : EditorObject, restoreObject (serializeObject o) freshId = Except.ok o2 ∧
      o2.data = o.data ∧
      o2.mesh.position = o.mesh.position ∧
      o2.mesh.rotation = o.mesh.rotation ∧
      o2.mesh.scale = o.mesh.scale := by
  obtain ⟨oid, omesh, odata⟩ := o
  rcases odata with _ | b | q | s | xs | dfs
  · simp [Json.isObj] at h
  · simp [Json.isObj] at h
  · simp [Json.isObj] at h
  · simp [Json.isObj] at h
  · simp [Json.isObj] at h
  · exact ⟨_, rfl, rfl, rfl, rfl, rfl⟩

theorem loadLoop_serialize (objs : List EditorObject) (fresh : ℕ → String) :
    ∀ (i : ℕ) (acc : List EditorObject), (∀ o ∈ objs, o.data.isObj = true) →
    ∃ objs2, loadLoop (objs.map serializeObject) fresh i acc = Except.ok (acc ++ objs2) ∧
      List.Forall₂ (fun o2 o =>
        o2.data = o.data ∧ o2.mesh.position = o.mesh.position ∧
        o2.mesh.rotation = o.mesh.rotation ∧ o2.mesh.scale = o.mesh.scale) objs2 objs := by
  induction objs with
  | nil =>
      intro i acc _
      exact ⟨[], by simp [loadLoop], List.Forall₂.nil⟩
  | cons o rest ih =>
      intro i acc h
      obtain ⟨o2, ho2, hdata, hp, hr, hs⟩ :=
        restoreObject_serializeObject o (fresh i) (h o (by simp))
      obtain ⟨objs2, hloop, hfa⟩ :=
        ih (i + 1) (acc ++ [o2]) (fun x hx => h x (by simp [hx]))
      refine ⟨o2 :: objs2, ?_, List.Forall₂.cons ⟨hdata, hp, hr, hs⟩ hfa⟩
      simp only [List.map_cons, loadLoop, ho2]
      rw [hloop]
      simp

/-- Claim C1: exporting a scene snapshot to JSON text, parsing that
text back, and restoring it via `loadScene` yields an entity set, in
the same order, whose per-entity semantic data equals the original's
and whose world transforms are within the 1e-6 tolerance of the
original's (they are exactly equal in the exact-arithmetic model). -/
theorem claim_C1 (objects : List EditorObject) (fresh : ℕ → String)
    (h : ∀ o ∈ objects, o.data.isObj = true) :
    ∃ state objs2, parseJSON (some (exportToJSON objects)) = some state ∧
      loadScene state fresh = Except.ok objs2 ∧
      List.Forall₂ (fun o2 o =>
        o2.data = o.data ∧ Vec3.close o2.mesh.position o.mesh.position ∧
        Vec3.close o2.mesh.rotation o.mesh.rotation ∧
        Vec3.close o2.mesh.scale o.mesh.scale) objs2 objects := by
  obtain ⟨objs2, hloop, hfa⟩ := loadLoop_serialize objects fresh 0 [] h
  refine ⟨exportToJSON objects, objs2, rfl, ?_, ?_⟩
  · show loadLoop (objects.map serializeObject) fresh 0 [] = Except.ok objs2
    rw [hloop]
    simp
  · refine List.Forall₂.imp ?_ hfa
    intro a b hab
    obtain ⟨h1, h2, h3, h4⟩ := hab
    exact ⟨h1, by rw [h2]; exact vec3_close_refl _, by rw [h3]; exact vec3_close_refl _,
           by rw [h4]; exact vec3_close_refl _⟩

/-- Claim C1 witness: the round-trip theorem applied to a one-box
scene; the restored entity set is exactly the original. -/
theorem claim_C1_witness :
    (∀ o ∈ [sampleBox], o.data.isObj = true) ∧
    parseJSON (some (exportToJSON [sampleBox])) = some (exportToJSON [sampleBox]) ∧
    loadScene (exportToJSON [sampleBox]) (fun _ => "obj_4_fresh00000") =
      Except.ok [sampleBox] ∧
    List.Forall₂ (fun o2 o =>
        o2.data = o.data ∧ Vec3.close o2.mesh.position o.mesh.position ∧
        Vec3.close o2.mesh.rotation o.mesh.rotation ∧
        Vec3.close o2.mesh.scale o.mesh.scale) [sampleBox] [sampleBox] := by
  have hcomp : loadScene (exportToJSON [sampleBox]) (fun _ => "obj_4_fresh00000") =
      Except.ok [sampleBox] := rfl
  obtain ⟨state, objs2, h1, h2, h3⟩ :=
    claim_C1 [sampleBox] (fun _ => "obj_4_fresh00000") (by decide)
  have hstate : state = exportToJSON [sampleBox] := (Option.some.inj h1).symm
  subst hstate
  have hobjs : objs2 = [sampleBox] := Except.ok.inj (h2.symm.trans hcomp)
  subst hobjs
  exact ⟨by decide, h1, h2, h3⟩
